import Mathlib

/-!
Verification of the payment reconciliation subsystem of the latodabags
e-commerce backend (Paystack integration).

The embedding covers:
* `PaystackService.verifyWebhookSignature` (services/paystackService.js)
* `PaystackService.verifyTransaction` reference shape check and
  `parseWebhookEvent` (services/paystackService.js)
* the payment route middleware `captureRawBody`, the route-level
  `verifyWebhookSignature` middleware and `validateVerifyPayment`
  (routes/payments.js)
* the controller handlers `initializePayment`, `verifyPayment` and
  `handleWebhook` (controllers/paymentController.js)
* the app-level middleware order of server.js — the global `express.json`
  is mounted before the payment router and consumes the stream ahead of
  `captureRawBody` — modelled by `appWebhookPipeline`
* the Idempotency Ledger and the Reconciliation Engine state machine.
  These two are TODO-stubbed in the source (every Order read and write in
  the controller is commented out), so they are modelled from the design
  document, as marked on each definition.

External collaborators (Node crypto HMAC, JSON.parse / JSON.stringify,
the Paystack HTTP API) are passed in as explicit function arguments: the
code under verification never inspects their internals, it only consumes
their results.
-/

namespace Latodabags

/-- JavaScript string truthiness for an optional string value:
`undefined` and the empty string are falsy. -/
def strTruthy : Option String → Bool
  | none => false
  | some s => s ≠ ""

/-- JavaScript `a || b` where `a` is a string and `b` an optional string:
the empty string is falsy, so it falls through to `b`. -/
def jsOr (a : String) (b : Option String) : Option String :=
  if a = "" then b else some a

/-- `PaystackService.verifyWebhookSignature(signature, body)`
(services/paystackService.js).

`hmacHex` stands for the external call
`crypto.createHmac(sha512, secretKey).update(body).digest(hex)` with the
secret key fixed; an `Except.error` result models the crypto library
throwing, which the function catches, returning `false`.
The result is the verdict paired with the exact bytes the HMAC was
computed over (`none` when no digest was computed at all). -/
def verifyWebhookSignatureT (hmacHex : String → Except String String) :
    Option String → Option String → Bool × Option String
  | some sig, some body =>
    if sig = "" ∨ body = "" then (false, none)
    else
      match hmacHex body with
      | Except.error _ => (false, some body)
      | Except.ok hash => (decide (hash = sig), some body)
  | _, _ => (false, none)

/-- The boolean verdict of `PaystackService.verifyWebhookSignature`. -/
def verifyWebhookSignature (hmacHex : String → Except String String)
    (signature body : Option String) : Bool :=
  (verifyWebhookSignatureT hmacHex signature body).1

/-- A concrete stand-in for the keyed HMAC collaborator, used to
instantiate the generic theorems at concrete inputs. -/
def hmacDemo : String → Except String String :=
  fun s => Except.ok (String.append "h" s)

/-- The `data` object of a Paystack webhook body, as read by
`parseWebhookEvent`; `none` fields model absent (undefined) JS fields. -/
structure EventDataJs where
  reference : Option String
  status : Option String
  amount : Option Int
deriving DecidableEq

/-- A parsed webhook request body `{event, data}`; `none` models an absent
field, and an absent body altogether is `Option WebhookEventJs = none`. -/
structure WebhookEventJs where
  event : Option String
  data : Option EventDataJs
deriving DecidableEq

/-- The normalized event object returned by
`PaystackService.parseWebhookEvent`. -/
structure ParsedEvent where
  event : String
  reference : Option String
  status : Option String
  amount : Option Int
deriving DecidableEq

/-- `PaystackService.parseWebhookEvent(event)` (services/paystackService.js):
throws on a falsy body or a falsy `event.event` field; accessing
`event.data.reference` on an undefined `data` also throws (a TypeError).
`Except.error` models the throw, which `handleWebhook` catches. -/
def parseWebhookEvent : Option WebhookEventJs → Except String ParsedEvent
  | none => Except.error "Invalid webhook event"
  | some e =>
    match e.event with
    | none => Except.error "Invalid webhook event"
    | some name =>
      if name = "" then Except.error "Invalid webhook event"
      else
        match e.data with
        | none => Except.error "TypeError"
        | some d => Except.ok ⟨name, d.reference, d.status, d.amount⟩

/-- An HTTP response of the webhook endpoint: status code and the `success`
flag of the JSON body. -/
structure WebhookHttpResponse where
  status : Nat
  success : Bool
deriving DecidableEq

/-- A webhook response together with the bytes the HMAC digest was actually
computed over during the request (`none` when no digest was computed). -/
structure WebhookTrace where
  resp : WebhookHttpResponse
  hmacInput : Option String
deriving DecidableEq

/-- `exports.handleWebhook` (controllers/paymentController.js).

`reqBody` is `req.body` (`none` when undefined), `rawBody` is `req.rawBody`
as set by the `captureRawBody` middleware. `stringifyJs` models
`JSON.stringify`, `process` models the internal effect of the per-event
handlers (`handleChargeSuccess` etc.); each of those wraps its body in its
own try/catch, so its outcome never reaches the response. A `parseWebhookEvent`
throw is caught by the outer catch, which still answers 200. -/
def handleWebhook (hmacHex : String → Except String String)
    (stringifyJs : WebhookEventJs → String)
    (process : ParsedEvent → Except String Unit)
    (signature : Option String) (rawBody : String)
    (reqBody : Option WebhookEventJs) : WebhookTrace :=
  if strTruthy signature = false then
    ⟨⟨400, false⟩, none⟩
  else
    let bodyForSig := jsOr rawBody (reqBody.map stringifyJs)
    let ver := verifyWebhookSignatureT hmacHex signature bodyForSig
    if ver.1 = false then ⟨⟨401, false⟩, ver.2⟩
    else
      match parseWebhookEvent reqBody with
      | Except.error _ => ⟨⟨200, false⟩, ver.2⟩
      | Except.ok ev =>
        let _ignored := process ev
        ⟨⟨200, true⟩, ver.2⟩

/-- Concrete webhook `data` object used to instantiate generic theorems. -/
def demoEventDataJs : EventDataJs := ⟨some "ref1", some "success", some 5000⟩

/-- Concrete webhook body used to instantiate generic theorems. -/
def demoEventJs : WebhookEventJs := ⟨some "charge.success", some demoEventDataJs⟩

/-- A concrete stand-in for `JSON.parse`: accepts exactly one raw payload. -/
def jsonParseDemo : String → Option WebhookEventJs :=
  fun s => if s = "rawbytes" then some demoEventJs else none

/-- A concrete stand-in for `JSON.stringify`; deliberately NOT the inverse of
`jsonParseDemo`, as parse-then-stringify need not reproduce the wire bytes. -/
def stringifyDemo : WebhookEventJs → String := fun _ => "restringified"

/-- A concrete event processor that always throws, exercising the
claim that internal processing failures never change the response. -/
def processDemo : ParsedEvent → Except String Unit :=
  fun _ => Except.error "boom"

/-- Outcome of a webhook POST through the app-level middleware stack:
either an HTTP response, or no response at all — the request hangs because
a middleware never calls next(). -/
inductive AppWebhookOutcome
  | response (t : WebhookTrace)
  | hang
deriving DecidableEq

/-- The empty object that body-parser assigns to req.body on every request
it does not parse (its `req.body = req.body || ...` default): an object
with no fields. -/
def emptyJsObject : WebhookEventJs := ⟨none, none⟩

/-- `POST /api/v1/payment/webhook` through the app-level middleware stack:
server.js mounts the global `express.json()` (line 68) before the payment
router (line 110), so it runs before the route-level `captureRawBody`,
contradicting the routes file's own comment that the raw-body capture must
be applied before body parsing.

With a JSON content type, express.json consumes the request stream: an
empty body (Content-Length 0) is mapped to the empty object without error,
a malformed body is answered 400 through the error-handling middleware,
and a well-formed body is parsed into req.body. In the consumed cases
`captureRawBody` attaches its data/end listeners after the stream has
already ended; they never fire, next() is never called, and the request
hangs with no response. With a content type no body parser consumes
(e.g. text/plain), body-parser still sets req.body to the empty object and
leaves the stream unread, so `captureRawBody` captures the raw bytes
(skipping its own JSON parse), the route middleware answers 401 on a
missing or empty signature header, and the controller then runs with
req.body equal to the empty object — not undefined. -/
def appWebhookPipeline (jsonParse : String → Option WebhookEventJs)
    (hmacHex : String → Except String String)
    (stringifyJs : WebhookEventJs → String)
    (process : ParsedEvent → Except String Unit)
    (signature : Option String) (contentTypeJson : Bool)
    (rawBytes : String) : AppWebhookOutcome :=
  if contentTypeJson then
    if rawBytes = "" then AppWebhookOutcome.hang
    else
      match jsonParse rawBytes with
      | none => AppWebhookOutcome.response ⟨⟨400, false⟩, none⟩
      | some _ => AppWebhookOutcome.hang
  else
    if strTruthy signature = false then
      AppWebhookOutcome.response ⟨⟨401, false⟩, none⟩
    else
      AppWebhookOutcome.response
        (handleWebhook hmacHex stringifyJs process signature rawBytes
          (some emptyJsObject))

/-- The payment status of an Order. The source stores it as the string field
`paymentStatus` with exactly these values. -/
inductive PayStatus
  | pending
  | processing
  | completed
  | failed
  | cancelled
deriving DecidableEq

/-- An Order document as the payment subsystem sees it. -/
structure OrderM where
  totalAmount : ℚ
  paymentStatus : PayStatus
  paymentReference : Option String
  paidAt : Option Nat
  authorizationCode : Option String
  failureReason : Option String
deriving DecidableEq

/-- JavaScript `Math.round` on the (positive) amounts at hand: round half
towards positive infinity. -/
def mathRound (q : ℚ) : ℤ := Int.floor (q + 1 / 2)

/-- `paystackConfig.transaction.minAmount` (config/paystack.js): ₦100 in
kobo. -/
def paystackMinAmount : ℤ := 10000

/-- `paystackConfig.transaction.maxAmount` (config/paystack.js): ₦500,000 in
kobo. -/
def paystackMaxAmount : ℤ := 50000000

/-- The `const orderTotal = amount || 10000` line of
`exports.initializePayment`: a missing or falsy amount falls back to the
hardcoded ₦10,000 total (the order lookup is TODO-commented). -/
def initOrderTotal : Option ℚ → ℚ
  | none => 10000
  | some a => if a = 0 then 10000 else a

/-- `const amountInKobo = Math.round(orderTotal * 100)` of
`exports.initializePayment`. -/
def initAmountInKobo (amount : Option ℚ) : ℤ :=
  mathRound (initOrderTotal amount * 100)

/-- Outcome of `exports.initializePayment`: an early 400 rejection sent
before the Paystack call, or the outbound gateway call with the computed
kobo amount. -/
inductive InitOutcome
  | earlyReject (status : Nat) (message : String)
  | gatewayCall (amountInKobo : ℤ)
deriving DecidableEq

/-- `exports.initializePayment` (controllers/paymentController.js), after
route validation accepted `orderId` and the optional `amount` (in naira).
The persistent Order document is threaded through as `order`: every read and
write of it in the source is TODO-commented out, so the function returns it
unchanged on every path. -/
def initializePayment (order : OrderM) (amount : Option ℚ) :
    InitOutcome × OrderM :=
  let amountInKobo := initAmountInKobo amount
  if amountInKobo < 10000 then
    (InitOutcome.earlyReject 400 "Order amount must be at least ₦100", order)
  else if amountInKobo > 50000000 then
    (InitOutcome.earlyReject 400 "Order amount cannot exceed ₦500,000", order)
  else
    (InitOutcome.gatewayCall amountInKobo, order)

/-- The amount validation at the top of
`PaystackService.initializeTransaction` (services/paystackService.js):
`true` when the kobo amount passes the configured floor and ceiling. -/
def initializeTransactionAmountOk (amount : ℤ) : Bool :=
  ¬(amount < paystackMinAmount) ∧ ¬(amount > paystackMaxAmount)

/-- `validateVerifyPayment` route middleware (routes/payments.js): the Joi
schema accepts a required string reference of length 5 to 255. -/
def validateVerifyPaymentOk (reference : String) : Bool :=
  5 ≤ reference.length ∧ reference.length ≤ 255

/-- The first phase of `PaystackService.verifyTransaction`
(services/paystackService.js): either the reference shape check throws, or
the outbound network request is issued for that reference. -/
inductive VerifyTxStep
  | thrown (message : String)
  | networkCall (reference : String)
deriving DecidableEq

/-- The reference shape check of `PaystackService.verifyTransaction`:
`if (!reference || typeof reference !== string || reference.length < 5)`
throws before the axios call; a non-string reference is modelled as
`none`. -/
def verifyTransactionStep : Option String → VerifyTxStep
  | none => VerifyTxStep.thrown "Invalid transaction reference"
  | some r =>
    if r = "" then VerifyTxStep.thrown "Invalid transaction reference"
    else if r.length < 5 then VerifyTxStep.thrown "Invalid transaction reference"
    else VerifyTxStep.networkCall r

/-- The reference shape check as the specification words it (length AND
charset): a reference fails when shorter than 5 characters or when it
contains a character outside the alphanumeric, dash, underscore, period
set. Stated from the spec for comparison with the implemented check. -/
def refFailsShapeSpec (r : String) : Bool :=
  r.length < 5
    || r.data.any (fun c => !(c.isAlphanum || c = '-' || c = '_' || c = '.'))

/-- The object `PaystackService.verifyTransaction` returns on a 2xx provider
response, read from `response.data.data`. -/
structure VerificationResult where
  status : String
  amount : ℤ
  email : String
  paidAt : Option String
  authorizationCode : String
deriving DecidableEq

/-- HTTP responses of `exports.verifyPayment`: an error response or the 200
data payload `{status, amount, depositPaid, paidAt}`. -/
inductive VerifyHttpResponse
  | err (status : Nat) (message : String) (gatewayStatus : Option String)
  | okPayload (status : String) (amount : ℚ) (depositPaid : Bool)
      (paidAt : Option String)
deriving DecidableEq

/-- `exports.verifyPayment` (controllers/paymentController.js). `gateway`
abstracts the outcome of `await paystackService.verifyTransaction`
(`Except.error` models a throw, which the catch block answers with 500).
The Order document is threaded through unchanged: every Order read and
write in the source is TODO-commented out. -/
def verifyPayment (reference : Option String)
    (gateway : Except String VerificationResult)
    (order : OrderM) : VerifyHttpResponse × OrderM :=
  match reference with
  | none =>
    (VerifyHttpResponse.err 400 "Transaction reference is required" none,
      order)
  | some r =>
    if r = "" then
      (VerifyHttpResponse.err 400 "Transaction reference is required" none,
        order)
    else
      match gateway with
      | Except.error _ =>
        (VerifyHttpResponse.err 500 "Payment verification failed" none, order)
      | Except.ok v =>
        if v.status ≠ "success" then
          (VerifyHttpResponse.err 400 "Payment verification failed"
            (some v.status), order)
        else
          (VerifyHttpResponse.okPayload v.status ((v.amount : ℚ) / 100) true
            v.paidAt, order)

/-- N successive verify calls for one reference, each observing the same
gateway outcome, threading the Order document through. Returns the list of
responses and the final Order. -/
def verifyCalls (reference : Option String)
    (gateway : Except String VerificationResult) :
    Nat → OrderM → List VerifyHttpResponse × OrderM
  | 0, order => ([], order)
  | Nat.succ n, order =>
    let step := verifyPayment reference gateway order
    let rest := verifyCalls reference gateway n step.2
    (step.1 :: rest.1, rest.2)

/-- A concrete gateway verification result for instantiating theorems. -/
def demoVerification : VerificationResult :=
  ⟨"success", 1500000, "customer@test.com", some "2025-12-18T10:30:00Z",
    "AUTH_code1"⟩

/-- A concrete Order document for instantiating theorems. -/
def demoOrder : OrderM :=
  ⟨15000, PayStatus.processing, some "ref_abc123", none, none, none⟩

/-- Modelled from the spec: the Idempotency Ledger state. The backing store
with a uniqueness constraint on `reference` is missing from the source (the
persistence layer is TODO-stubbed in the controller), so the ledger is
modelled from the design document as the set of already-applied
references. -/
structure LedgerState where
  applied : List String
deriving DecidableEq

/-- Modelled from the spec: `tryApply(reference)`, the atomic
check-and-insert of the Idempotency Ledger, missing from the source.
Returns the `alreadyApplied` flag together with the updated ledger; the
store's uniqueness constraint makes check and insert one atomic step. -/
def tryApply (st : LedgerState) (ref : String) : Bool × LedgerState :=
  if ref ∈ st.applied then (true, st)
  else (false, ⟨ref :: st.applied⟩)

/-- Terminal payment states of the reconciliation state machine. -/
def isTerminal : PayStatus → Bool
  | PayStatus.completed => true
  | PayStatus.failed => true
  | PayStatus.cancelled => true
  | _ => false

/-- Events consumed by the Reconciliation Engine: verified gateway or
webhook outcomes, explicit user cancellation, an initialize attempt, and
unknown provider events. -/
inductive PayEvent
  | chargeSuccess (reference : String) (authCode : String) (t : Nat)
  | chargeFailed (reference : String) (reason : String)
  | cancelOrder
  | initAttempt (reference : String)
  | unknownEvent (name : String)
deriving DecidableEq

/-- The engine state: the Order document plus the Idempotency Ledger. -/
structure EngineState where
  order : OrderM
  ledger : LedgerState
deriving DecidableEq

/-- Observation of one engine step: the `alreadyApplied` flag the step read
from the ledger (`none` when the ledger was not consulted), and whether the
step performed the processing-to-completed mutation. -/
structure StepObs where
  alreadyApplied : Option Bool
  completedNow : Bool
deriving DecidableEq

/-- Modelled from the spec: the Reconciliation Engine transition function,
missing from the source (every Order mutation in the controller is
TODO-commented out). Terminal states discard every event; a verified
success event in `processing` is gated by the ledger's atomic
check-and-insert, the winning call setting completed, paidAt and the
authorization code and the losing call returning the state as-is; a failed
event in `processing` records the failure reason; cancellation is allowed
from the non-terminal states; an initialize attempt moves a pending Order
without a reference to processing; unknown events are ignored. -/
def applyEvent (st : EngineState) : PayEvent → EngineState × StepObs
  | PayEvent.chargeSuccess ref code t =>
    if isTerminal st.order.paymentStatus then (st, ⟨none, false⟩)
    else if st.order.paymentStatus = PayStatus.processing then
      let res := tryApply st.ledger ref
      if res.1 then (st, ⟨some true, false⟩)
      else
        (⟨{ st.order with
            paymentStatus := PayStatus.completed,
            paidAt := some t,
            authorizationCode := some code }, res.2⟩,
          ⟨some false, true⟩)
    else (st, ⟨none, false⟩)
  | PayEvent.chargeFailed _ reason =>
    if isTerminal st.order.paymentStatus then (st, ⟨none, false⟩)
    else if st.order.paymentStatus = PayStatus.processing then
      (⟨{ st.order with
          paymentStatus := PayStatus.failed,
          failureReason := some reason }, st.ledger⟩, ⟨none, false⟩)
    else (st, ⟨none, false⟩)
  | PayEvent.cancelOrder =>
    if isTerminal st.order.paymentStatus then (st, ⟨none, false⟩)
    else
      (⟨{ st.order with paymentStatus := PayStatus.cancelled }, st.ledger⟩,
        ⟨none, false⟩)
  | PayEvent.initAttempt ref =>
    if isTerminal st.order.paymentStatus then (st, ⟨none, false⟩)
    else if st.order.paymentStatus = PayStatus.pending
        ∧ st.order.paymentReference = none then
      (⟨{ st.order with
          paymentStatus := PayStatus.processing,
          paymentReference := some ref }, st.ledger⟩, ⟨none, false⟩)
    else (st, ⟨none, false⟩)
  | PayEvent.unknownEvent _ =>
    (st, ⟨none, false⟩)

/-- Modelled from the spec: run a linearized sequence of events through the
engine. The ledger's atomic step is the single serialization point, so any
concurrent execution of the handlers linearizes to such a sequence. Returns
the final state and the per-step observations. -/
def runEvents : EngineState → List PayEvent → EngineState × List StepObs
  | st, [] => (st, [])
  | st, e :: rest =>
    let step := applyEvent st e
    let next := runEvents step.1 rest
    (next.1, step.2 :: next.2)

/-- A concrete processing-state engine configuration. -/
def demoProcessingState : EngineState := ⟨demoOrder, ⟨[]⟩⟩

/-- A concrete cancelled-state engine configuration. -/
def demoCancelledState : EngineState :=
  ⟨⟨15000, PayStatus.cancelled, some "ref_abc123", none, none, none⟩, ⟨[]⟩⟩

/-- Claim C4: the signature verifier is total and fails closed: `false` on a
missing or empty header, `false` on a missing or empty body, `false` when the
computed digest differs from the header (`true` exactly when it matches), and
a crypto-library error is caught and turned into `false` rather than
propagated. -/
theorem C4_signature_fails_closed (hmacHex : String → Except String String) :
    (∀ body, verifyWebhookSignature hmacHex none body = false)
    ∧ (∀ body, verifyWebhookSignature hmacHex (some "") body = false)
    ∧ (∀ sig, verifyWebhookSignature hmacHex sig none = false)
    ∧ (∀ sig, verifyWebhookSignature hmacHex sig (some "") = false)
    ∧ (∀ s b, s ≠ "" → b ≠ "" →
        (verifyWebhookSignature hmacHex (some s) (some b) = true
          ↔ hmacHex b = Except.ok s))
    ∧ (∀ s b e, hmacHex b = Except.error e →
        verifyWebhookSignature hmacHex (some s) (some b) = false) := by
  refine ⟨?_, ?_, ?_, ?_, ?_, ?_⟩
  · intro body
    cases body <;> rfl
  · intro body
    cases body with
    | none => rfl
    | some b =>
      simp only [verifyWebhookSignature, verifyWebhookSignatureT]
      simp
  · intro sig
    cases sig <;> rfl
  · intro sig
    cases sig with
    | none => rfl
    | some s =>
      simp only [verifyWebhookSignature, verifyWebhookSignatureT]
      simp
  · intro s b hs hb
    simp only [verifyWebhookSignature, verifyWebhookSignatureT]
    rw [if_neg (by simp [hs, hb])]
    cases hh : hmacHex b with
    | error e => simp [hh]
    | ok hash => simp
  · intro s b e he
    simp only [verifyWebhookSignature, verifyWebhookSignatureT]
    by_cases hcase : s = "" ∨ b = ""
    · rw [if_pos hcase]
    · rw [if_neg hcase, he]

/-- Claim C4 witness: the fail-closed theorem applied at concrete inputs:
empty header rejected, and a matching digest accepted, for the demo HMAC. -/
theorem C4_signature_fails_closed_witness :
    verifyWebhookSignature hmacDemo (some "") (some "body") = false
    ∧ verifyWebhookSignature hmacDemo (some "hbody") (some "body") = true := by
  refine ⟨(C4_signature_fails_closed hmacDemo).2.1 (some "body"), ?_⟩
  exact ((C4_signature_fails_closed hmacDemo).2.2.2.2.1 "hbody" "body"
    (by decide) (by decide)).mpr rfl

/-- The trace slot of the signature verifier is either nothing or exactly the
body argument it was given. -/
theorem verifyWebhookSignatureT_snd (hmacHex : String → Except String String)
    (signature body : Option String) :
    (verifyWebhookSignatureT hmacHex signature body).2 = none
    ∨ (verifyWebhookSignatureT hmacHex signature body).2 = body := by
  cases signature with
  | none => exact Or.inl rfl
  | some s =>
    cases body with
    | none => exact Or.inl rfl
    | some b =>
      simp only [verifyWebhookSignatureT]
      by_cases h : s = "" ∨ b = ""
      · rw [if_pos h]; exact Or.inl rfl
      · rw [if_neg h]
        cases hmacHex b with
        | error e => exact Or.inr rfl
        | ok hash => exact Or.inr rfl

/-- With a nonempty header and nonempty raw bytes, the controller answers 200
exactly when the digest of the raw bytes matches the header, else 401. -/
theorem handleWebhook_status_eq (hmacHex : String → Except String String)
    (stringifyJs : WebhookEventJs → String)
    (process : ParsedEvent → Except String Unit)
    (s rawBody : String) (reqBody : Option WebhookEventJs)
    (hs : s ≠ "") (hrb : rawBody ≠ "") :
    (hmacHex rawBody = Except.ok s →
      (handleWebhook hmacHex stringifyJs process (some s) rawBody reqBody).resp.status
        = 200)
    ∧ (hmacHex rawBody ≠ Except.ok s →
      (handleWebhook hmacHex stringifyJs process (some s) rawBody reqBody).resp.status
        = 401) := by
  have hbody : jsOr rawBody (Option.map stringifyJs reqBody) = some rawBody := by
    simp [jsOr, hrb]
  constructor
  · intro hok
    cases hp : parseWebhookEvent reqBody <;>
      simp [handleWebhook, strTruthy, hs, hbody, verifyWebhookSignatureT, hrb,
        hok, hp]
  · intro hbad
    cases hh : hmacHex rawBody with
    | error e =>
      simp [handleWebhook, strTruthy, hs, hbody, verifyWebhookSignatureT, hrb, hh]
    | ok hash =>
      have hne : hash ≠ s := fun h => hbad (by rw [hh, h])
      simp [handleWebhook, strTruthy, hs, hbody, verifyWebhookSignatureT, hrb,
        hh, hne]

/-- The controller either computes no digest at all or records exactly the
trace of the signature verifier applied to `rawBody || stringify(req.body)`. -/
theorem handleWebhook_hmacInput (hmacHex : String → Except String String)
    (stringifyJs : WebhookEventJs → String)
    (process : ParsedEvent → Except String Unit)
    (signature : Option String) (rawBody : String)
    (reqBody : Option WebhookEventJs) :
    (handleWebhook hmacHex stringifyJs process signature rawBody
        reqBody).hmacInput = none
    ∨ (handleWebhook hmacHex stringifyJs process signature rawBody
        reqBody).hmacInput
      = (verifyWebhookSignatureT hmacHex signature
          (jsOr rawBody (Option.map stringifyJs reqBody))).2 := by
  by_cases h : strTruthy signature = false
  · exact Or.inl (by simp [handleWebhook, h])
  · refine Or.inr ?_
    simp only [handleWebhook, if_neg h]
    by_cases hv : (verifyWebhookSignatureT hmacHex signature
        (jsOr rawBody (Option.map stringifyJs reqBody))).1 = false
    · simp [hv]
    · cases hp : parseWebhookEvent reqBody <;> simp [hv, hp]

/-- The verify controller never mutates the Order document. -/
theorem verifyPayment_snd (reference : Option String)
    (gateway : Except String VerificationResult) (order : OrderM) :
    (verifyPayment reference gateway order).2 = order := by
  cases reference with
  | none => rfl
  | some r =>
    by_cases hr : r = ""
    · simp [verifyPayment, hr]
    · cases gateway with
      | error e => simp [verifyPayment, hr]
      | ok v =>
        by_cases hs : v.status = "success" <;> simp [verifyPayment, hr, hs]

/-- Claim C5: an initialize request whose computed kobo amount is below the
configured floor or above the configured ceiling is answered 400 before the
gateway call with the Order untouched (so a pending Order stays pending with
no reference assigned), and every kobo amount within the floor and ceiling
passes the range check into the gateway call. -/
theorem C5_amount_range (order : OrderM) (amount : Option ℚ) :
    (initAmountInKobo amount < paystackMinAmount →
      initializePayment order amount
        = (InitOutcome.earlyReject 400 "Order amount must be at least ₦100",
            order))
    ∧ (initAmountInKobo amount > paystackMaxAmount →
      initializePayment order amount
        = (InitOutcome.earlyReject 400 "Order amount cannot exceed ₦500,000",
            order))
    ∧ (paystackMinAmount ≤ initAmountInKobo amount →
        initAmountInKobo amount ≤ paystackMaxAmount →
      initializePayment order amount
        = (InitOutcome.gatewayCall (initAmountInKobo amount), order)
        ∧ initializeTransactionAmountOk (initAmountInKobo amount) = true) := by
  refine ⟨?_, ?_, ?_⟩
  · intro h
    simp only [paystackMinAmount] at h
    simp [initializePayment, h]
  · intro h
    simp only [paystackMaxAmount] at h
    have h2 : ¬ initAmountInKobo amount < 10000 := by omega
    simp [initializePayment, h, h2]
  · intro h1 h2
    simp only [paystackMinAmount] at h1
    simp only [paystackMaxAmount] at h2
    have hlt : ¬ initAmountInKobo amount < 10000 := by omega
    have hgt : ¬ initAmountInKobo amount > 50000000 := by omega
    constructor
    · simp [initializePayment, hlt, hgt]
    · simp [initializeTransactionAmountOk, paystackMinAmount,
        paystackMaxAmount]
      omega

/-- Claim C5 witness: amount ₦50 computes 5000 kobo, below the ₦100 floor,
and is rejected 400 with the pending Order unchanged; amount ₦150 passes. -/
theorem C5_amount_range_witness :
    initializePayment demoOrder (some 50)
      = (InitOutcome.earlyReject 400 "Order amount must be at least ₦100",
          demoOrder)
    ∧ initializePayment demoOrder (some 150)
      = (InitOutcome.gatewayCall 15000, demoOrder) := by
  have h50 : initAmountInKobo (some 50) = 5000 := by
    norm_num [initAmountInKobo, initOrderTotal, mathRound]
  have h150 : initAmountInKobo (some 150) = 15000 := by
    norm_num [initAmountInKobo, initOrderTotal, mathRound]
  constructor
  · exact (C5_amount_range demoOrder (some 50)).1
      (by rw [h50]; decide)
  · have h := ((C5_amount_range demoOrder (some 150)).2.2
      (by rw [h150]; decide) (by rw [h150]; decide)).1
    rw [h150] at h
    exact h

/-- Claim C10: an initialize request with the amount omitted (or falsy) uses
the hardcoded ₦10,000 total — independently of the stored Order total — so
the gateway is called with 1,000,000 kobo; and a provided amount is converted
to kobo by Math.round(amount * 100). -/
theorem C10_default_amount :
    initOrderTotal none = 10000
    ∧ initOrderTotal (some 0) = 10000
    ∧ (∀ order : OrderM,
        (initializePayment order none).1 = InitOutcome.gatewayCall 1000000)
    ∧ (∀ o1 o2 : OrderM,
        (initializePayment o1 none).1 = (initializePayment o2 none).1)
    ∧ (∀ a : ℚ, a ≠ 0 → initAmountInKobo (some a) = mathRound (a * 100)) := by
  have hk : initAmountInKobo none = 1000000 := by
    norm_num [initAmountInKobo, initOrderTotal, mathRound]
  refine ⟨rfl, by simp [initOrderTotal], ?_, ?_, ?_⟩
  · intro order
    simp [initializePayment, hk]
  · intro o1 o2
    simp [initializePayment, hk]
  · intro a ha
    simp [initAmountInKobo, initOrderTotal, ha]

/-- Claim C10 witness: with the amount omitted the hardcoded total applies
for an arbitrary concrete Order, and amount ₦150 rounds to 15000 kobo. -/
theorem C10_default_amount_witness :
    (initializePayment demoOrder none).1 = InitOutcome.gatewayCall 1000000
    ∧ initAmountInKobo (some 150) = mathRound (150 * 100) :=
  ⟨C10_default_amount.2.2.1 demoOrder,
    C10_default_amount.2.2.2.2 150 (by norm_num)⟩

/-- Claim C6 counterexample: the reference "@@@@@" fails the spec's shape
check (five characters outside any reasonable reference charset), yet the
route validation accepts it and `verifyTransaction` proceeds to the network
call instead of failing first: the implemented check inspects only length. -/
theorem C6_counterexample :
    refFailsShapeSpec "@@@@@" = true
    ∧ validateVerifyPaymentOk "@@@@@" = true
    ∧ verifyTransactionStep (some "@@@@@")
        = VerifyTxStep.networkCall "@@@@@" := by
  refine ⟨by decide, by decide, by decide⟩

/-- Claim C6 (amended): a verify call whose reference fails the implemented
shape check — a non-string, empty, or shorter-than-5 reference (the route
middleware additionally rejects lengths over 255) — throws
InvalidReference before any network call; the check inspects only type and
length, and any string reference of length at least 5 reaches the network
call regardless of its characters. -/
theorem C6_shape_check_length_only :
    (∀ r : Option String,
      (r = none ∨ ∃ s, r = some s ∧ s.length < 5) →
      verifyTransactionStep r
        = VerifyTxStep.thrown "Invalid transaction reference")
    ∧ (∀ s : String, s.length < 5 → validateVerifyPaymentOk s = false)
    ∧ (∀ s : String, 5 ≤ s.length →
        verifyTransactionStep (some s) = VerifyTxStep.networkCall s) := by
  refine ⟨?_, ?_, ?_⟩
  · intro r hr
    rcases hr with hr | ⟨s, hr, hlen⟩
    · rw [hr]; rfl
    · rw [hr]
      by_cases hs : s = ""
      · simp [verifyTransactionStep, hs]
      · simp [verifyTransactionStep, hs, hlen]
  · intro s hlen
    simp [validateVerifyPaymentOk]
    omega
  · intro s hlen
    have hs : s ≠ "" := by
      intro h
      rw [h] at hlen
      simp at hlen
    have hl : ¬ s.length < 5 := by omega
    simp [verifyTransactionStep, hs, hl]

/-- Claim C6 witness: the short reference "abc" throws before the network
call, and "ref_abc123" reaches the network call. -/
theorem C6_shape_check_length_only_witness :
    verifyTransactionStep (some "abc")
      = VerifyTxStep.thrown "Invalid transaction reference"
    ∧ verifyTransactionStep (some "ref_abc123")
      = VerifyTxStep.networkCall "ref_abc123" :=
  ⟨C6_shape_check_length_only.1 (some "abc")
      (Or.inr ⟨"abc", rfl, by decide⟩),
    C6_shape_check_length_only.2.2 "ref_abc123" (by decide)⟩

/-- On a gateway "success" status the verify controller answers the 200
payload built from the gateway fields. -/
theorem verifyPayment_ok_success (r : String) (hr : r ≠ "")
    (v : VerificationResult) (hv : v.status = "success") (order : OrderM) :
    (verifyPayment (some r) (Except.ok v) order).1
      = VerifyHttpResponse.okPayload "success" ((v.amount : ℚ) / 100) true
          v.paidAt := by
  simp [verifyPayment, hr, hv]

/-- Claim C9: the verify endpoint answers 400 with success false, echoing
the gateway status, whenever the gateway reports a status other than
"success", and answers the 200 payload exactly when the status is
"success". -/
theorem C9_verify_status_gate (r : String) (hr : r ≠ "")
    (v : VerificationResult) (order : OrderM) :
    (v.status ≠ "success" →
      (verifyPayment (some r) (Except.ok v) order).1
        = VerifyHttpResponse.err 400 "Payment verification failed"
            (some v.status))
    ∧ (v.status = "success" →
      (verifyPayment (some r) (Except.ok v) order).1
        = VerifyHttpResponse.okPayload "success" ((v.amount : ℚ) / 100) true
            v.paidAt) := by
  constructor
  · intro hs
    simp [verifyPayment, hr, hs]
  · intro hs
    exact verifyPayment_ok_success r hr v hs order

/-- Claim C9 witness: a "pending" gateway status is answered 400 echoing
"pending", and a "success" status is answered with the 200 payload. -/
theorem C9_verify_status_gate_witness :
    (verifyPayment (some "ref_abc123")
        (Except.ok ⟨"pending", 1500000, "customer@test.com", none, "AUTH"⟩)
        demoOrder).1
      = VerifyHttpResponse.err 400 "Payment verification failed"
          (some "pending")
    ∧ (verifyPayment (some "ref_abc123") (Except.ok demoVerification)
        demoOrder).1
      = VerifyHttpResponse.okPayload "success" 15000 true
          (some "2025-12-18T10:30:00Z") := by
  constructor
  · exact (C9_verify_status_gate "ref_abc123" (by decide)
      ⟨"pending", 1500000, "customer@test.com", none, "AUTH"⟩ demoOrder).1
      (by decide)
  · have h := (C9_verify_status_gate "ref_abc123" (by decide)
      demoVerification demoOrder).2 rfl
    rw [h]
    norm_num [demoVerification]

/-- Claim C7: verify calls repeated N times for a reference whose gateway
verification stably reports "success" are idempotent: every call returns the
same status, amount and paidAt payload, and no call mutates the Order. -/
theorem C7_verify_idempotent (r : String) (hr : r ≠ "")
    (v : VerificationResult) (hv : v.status = "success")
    (order : OrderM) (n : Nat) :
    (verifyCalls (some r) (Except.ok v) n order).2 = order
    ∧ ∀ resp ∈ (verifyCalls (some r) (Except.ok v) n order).1,
        resp = VerifyHttpResponse.okPayload "success" ((v.amount : ℚ) / 100)
          true v.paidAt := by
  induction n generalizing order with
  | zero => exact ⟨rfl, by intro resp h; simp [verifyCalls] at h⟩
  | succ k ih =>
    have hstep : verifyPayment (some r) (Except.ok v) order
        = (VerifyHttpResponse.okPayload "success" ((v.amount : ℚ) / 100) true
            v.paidAt, order) := by
      have h1 := verifyPayment_ok_success r hr v hv order
      have h2 := verifyPayment_snd (some r) (Except.ok v) order
      exact Prod.ext h1 h2
    constructor
    · simp only [verifyCalls, hstep]
      exact (ih order).1
    · intro resp h
      simp only [verifyCalls, hstep, List.mem_cons] at h
      rcases h with h | h
      · exact h
      · exact (ih order).2 resp h

/-- Claim C7 witness: three repeated verify calls on a concrete completed
reference return the identical payload and leave the Order untouched. -/
theorem C7_verify_idempotent_witness :
    (verifyCalls (some "ref_abc123") (Except.ok demoVerification) 3
        demoOrder).2 = demoOrder
    ∧ ∀ resp ∈ (verifyCalls (some "ref_abc123")
        (Except.ok demoVerification) 3 demoOrder).1,
        resp = VerifyHttpResponse.okPayload "success"
          ((demoVerification.amount : ℚ) / 100) true demoVerification.paidAt :=
  C7_verify_idempotent "ref_abc123" (by decide) demoVerification rfl
    demoOrder 3

/-- A terminal state absorbs any single event, observing nothing. -/
theorem applyEvent_terminal (st : EngineState) (e : PayEvent)
    (h : isTerminal st.order.paymentStatus = true) :
    applyEvent st e = (st, ⟨none, false⟩) := by
  cases e <;> simp [applyEvent, h]

/-- A terminal state absorbs any event sequence, observing nothing. -/
theorem runEvents_terminal (evs : List PayEvent) (st : EngineState)
    (h : isTerminal st.order.paymentStatus = true) :
    runEvents st evs = (st, evs.map (fun _ => ⟨none, false⟩)) := by
  induction evs generalizing st with
  | nil => rfl
  | cons e rest ih =>
    simp only [runEvents, applyEvent_terminal st e h, List.map_cons]
    rw [ih st h]

/-- A list of silent observations contains no step that saw
`alreadyApplied = false` and no step that mutated to completed. -/
theorem countP_silent (p : StepObs → Bool)
    (hp : p ⟨none, false⟩ = false) (k : Nat) :
    List.countP p (List.replicate k ⟨none, false⟩) = 0 := by
  induction k with
  | zero => simp
  | succ m ih =>
    simp [List.replicate_succ, List.countP_cons, hp, ih]

/-- Claim C1: for any linearization of N ≥ 1 verify/webhook success events
bearing one reference, applied to a processing Order whose reference is not
yet in the Idempotency Ledger, the whole run equals its first step (every
later call observes the already-completed state unchanged), the final Order
is completed with paidAt and authorizationCode set, exactly one step
observed alreadyApplied = false from the ledger's atomic check-and-insert,
and exactly one step performed the processing-to-completed mutation. -/
theorem C1_at_most_once_completion (st : EngineState) (ref code : String)
    (t : Nat) (n : Nat) (hn : 1 ≤ n)
    (hproc : st.order.paymentStatus = PayStatus.processing)
    (href : ref ∉ st.ledger.applied) :
    ((runEvents st (List.replicate n (PayEvent.chargeSuccess ref code t))).1
      = (applyEvent st (PayEvent.chargeSuccess ref code t)).1)
    ∧ (runEvents st (List.replicate n
        (PayEvent.chargeSuccess ref code t))).1.order.paymentStatus
      = PayStatus.completed
    ∧ (runEvents st (List.replicate n
        (PayEvent.chargeSuccess ref code t))).1.order.paidAt = some t
    ∧ (runEvents st (List.replicate n
        (PayEvent.chargeSuccess ref code t))).1.order.authorizationCode
      = some code
    ∧ List.countP (fun o => o.alreadyApplied == some false)
        (runEvents st (List.replicate n
          (PayEvent.chargeSuccess ref code t))).2 = 1
    ∧ List.countP (fun o => o.completedNow)
        (runEvents st (List.replicate n
          (PayEvent.chargeSuccess ref code t))).2 = 1 := by
  obtain ⟨k, rfl⟩ : ∃ k, n = k + 1 := ⟨n - 1, by omega⟩
  have htry : tryApply st.ledger ref = (false, ⟨ref :: st.ledger.applied⟩) := by
    simp [tryApply, href]
  have hstep : applyEvent st (PayEvent.chargeSuccess ref code t)
      = (⟨⟨st.order.totalAmount, PayStatus.completed,
            st.order.paymentReference, some t, some code,
            st.order.failureReason⟩, ⟨ref :: st.ledger.applied⟩⟩,
         ⟨some false, true⟩) := by
    simp [applyEvent, isTerminal, hproc, htry]
  have hrun : runEvents st
      (List.replicate (k + 1) (PayEvent.chargeSuccess ref code t))
      = (⟨⟨st.order.totalAmount, PayStatus.completed,
            st.order.paymentReference, some t, some code,
            st.order.failureReason⟩, ⟨ref :: st.ledger.applied⟩⟩,
         ⟨some false, true⟩
           :: List.replicate k (⟨none, false⟩ : StepObs)) := by
    rw [List.replicate_succ]
    simp only [runEvents, hstep]
    rw [runEvents_terminal _
      (⟨⟨st.order.totalAmount, PayStatus.completed,
          st.order.paymentReference, some t, some code,
          st.order.failureReason⟩, ⟨ref :: st.ledger.applied⟩⟩ : EngineState)
      rfl]
    simp [List.map_replicate]
  refine ⟨?_, ?_, ?_, ?_, ?_, ?_⟩
  · rw [hrun, hstep]
  · rw [hrun]
  · rw [hrun]
  · rw [hrun]
  · rw [hrun]
    rw [List.countP_cons]
    rw [countP_silent _ rfl k]
    simp
  · rw [hrun]
    rw [List.countP_cons]
    rw [countP_silent _ rfl k]
    simp

/-- Claim C1 witness: three duplicate success deliveries for one concrete
reference complete the Order once: exactly one ledger insert wins and
exactly one step mutates to completed. -/
theorem C1_at_most_once_completion_witness :
    (runEvents demoProcessingState (List.replicate 3
        (PayEvent.chargeSuccess "ref_abc123" "AUTH_code1" 5))).1.order.paymentStatus
      = PayStatus.completed
    ∧ List.countP (fun o => o.alreadyApplied == some false)
        (runEvents demoProcessingState (List.replicate 3
          (PayEvent.chargeSuccess "ref_abc123" "AUTH_code1" 5))).2 = 1
    ∧ List.countP (fun o => o.completedNow)
        (runEvents demoProcessingState (List.replicate 3
          (PayEvent.chargeSuccess "ref_abc123" "AUTH_code1" 5))).2 = 1 := by
  have h := C1_at_most_once_completion demoProcessingState "ref_abc123"
    "AUTH_code1" 5 3 (by decide) rfl (by simp [demoProcessingState])
  exact ⟨h.2.1, h.2.2.2.2.1, h.2.2.2.2.2⟩

/-- When header and body are both nonempty, the digest is computed and its
input recorded is exactly the body argument. -/
theorem verifyWebhookSignatureT_snd_eq (hmacHex : String → Except String String)
    (s b : String) (hs : s ≠ "") (hb : b ≠ "") :
    (verifyWebhookSignatureT hmacHex (some s) (some b)).2 = some b := by
  simp only [verifyWebhookSignatureT]
  rw [if_neg (by simp [hs, hb])]
  cases hmacHex b <;> rfl

/-- With a nonempty header, the controller computes the digest over whatever
`rawBody || JSON.stringify(req.body)` selects, when that value is a nonempty
string. -/
theorem handleWebhook_hmacInput_some (hmacHex : String → Except String String)
    (stringifyJs : WebhookEventJs → String)
    (process : ParsedEvent → Except String Unit)
    (s rawBody b : String) (reqBody : Option WebhookEventJs)
    (hs : s ≠ "") (hbne : b ≠ "")
    (hb : jsOr rawBody (Option.map stringifyJs reqBody) = some b) :
    (handleWebhook hmacHex stringifyJs process (some s) rawBody
      reqBody).hmacInput = some b := by
  have hv2 := verifyWebhookSignatureT_snd_eq hmacHex s b hs hbne
  by_cases hv : (verifyWebhookSignatureT hmacHex (some s) (some b)).1 = false
  · simp [handleWebhook, strTruthy, hs, hb, hv, hv2]
  · cases hp : parseWebhookEvent reqBody <;>
      simp [handleWebhook, strTruthy, hs, hb, hv, hp, hv2]

/-- Claim C2 (code bug): server.js mounts the global express.json before the
payment router, so for every webhook POST whose body is well-formed JSON the
stream is consumed before `captureRawBody`, whose end listener never fires:
the request hangs with no response at all — neither the 200 nor the 401 the
claim describes is ever sent, for any signature header, processing outcome
or event type. The controller's own comments (always return 200 to
acknowledge receipt) and the routes file's comment that the capture must
precede body parsing show the claim matches the intent. -/
theorem C2_webhook_never_answered
    (jsonParse : String → Option WebhookEventJs)
    (hmacHex : String → Except String String)
    (stringifyJs : WebhookEventJs → String)
    (process : ParsedEvent → Except String Unit)
    (signature : Option String) (rawBytes : String) (v : WebhookEventJs)
    (hjson : jsonParse rawBytes = some v) :
    appWebhookPipeline jsonParse hmacHex stringifyJs process signature true
      rawBytes = AppWebhookOutcome.hang := by
  by_cases hrb : rawBytes = ""
  · simp [appWebhookPipeline, hrb]
  · simp [appWebhookPipeline, hrb, hjson]

/-- Claim C2 witness: a concrete well-formed, correctly signed JSON webhook
POST produces no response through the app-level stack. -/
theorem C2_webhook_never_answered_witness :
    appWebhookPipeline jsonParseDemo hmacDemo stringifyDemo processDemo
      (some "hrawbytes") true "rawbytes" = AppWebhookOutcome.hang :=
  C2_webhook_never_answered jsonParseDemo hmacDemo stringifyDemo processDemo
    (some "hrawbytes") "rawbytes" demoEventJs (by decide)

/-- Claim C3 (code bug): an execution path computes the HMAC over a
re-serialization of the parsed body. A request whose content type no body
parser consumes, with an empty raw body and a nonempty signature header,
reaches the controller with req.body set to body-parser's empty object; the
empty rawBody is falsy, the `rawBody || JSON.stringify(req.body)` fallback
selects the stringified object, and the digest is computed over it rather
than over the wire bytes. JSON deliveries meanwhile hang before any digest
is computed. -/
theorem C3_hmac_over_reserialization
    (jsonParse : String → Option WebhookEventJs)
    (hmacHex : String → Except String String)
    (stringifyJs : WebhookEventJs → String)
    (process : ParsedEvent → Except String Unit)
    (s : String) (hs : s ≠ "") (hnz : stringifyJs emptyJsObject ≠ "") :
    appWebhookPipeline jsonParse hmacHex stringifyJs process (some s) false ""
      = AppWebhookOutcome.response
        (handleWebhook hmacHex stringifyJs process (some s) ""
          (some emptyJsObject))
    ∧ (handleWebhook hmacHex stringifyJs process (some s) ""
        (some emptyJsObject)).hmacInput = some (stringifyJs emptyJsObject) := by
  constructor
  · simp [appWebhookPipeline, strTruthy, hs]
  · exact handleWebhook_hmacInput_some hmacHex stringifyJs process s ""
      (stringifyJs emptyJsObject) (some emptyJsObject) hs hnz
      (by simp [jsOr])

/-- Claim C3 witness: at concrete collaborators, the empty-raw-body request
is answered (not hung) and its digest input is the re-serialized object,
not the wire bytes. -/
theorem C3_hmac_over_reserialization_witness :
    (handleWebhook hmacDemo stringifyDemo processDemo (some "sig1") ""
      (some emptyJsObject)).hmacInput = some (stringifyDemo emptyJsObject) :=
  (C3_hmac_over_reserialization jsonParseDemo hmacDemo stringifyDemo
    processDemo "sig1" (by decide) (by decide)).2

/-- Claim C8 (code bug): terminal payment states absorb every later event —
from any terminal state the engine discards all events with the state
unchanged, so a cancelled Order never subsequently reaches completed — but
the answered-with-200 conjunct fails: a stale success webhook is a
well-formed JSON POST, and through the app-level middleware stack it hangs
with no response instead of being answered 200. -/
theorem C8_terminal_absorb_stale_webhook :
    (∀ (st : EngineState) (evs : List PayEvent),
      isTerminal st.order.paymentStatus = true → (runEvents st evs).1 = st)
    ∧ (∀ (st : EngineState) (evs : List PayEvent),
      st.order.paymentStatus = PayStatus.cancelled →
      (runEvents st evs).1.order.paymentStatus = PayStatus.cancelled
        ∧ ¬ (runEvents st evs).1.order.paymentStatus = PayStatus.completed)
    ∧ (∀ (jsonParse : String → Option WebhookEventJs)
        (hmacHex : String → Except String String)
        (stringifyJs : WebhookEventJs → String)
        (process : ParsedEvent → Except String Unit)
        (signature : Option String) (rawBytes : String) (v : WebhookEventJs),
        jsonParse rawBytes = some v →
        appWebhookPipeline jsonParse hmacHex stringifyJs process signature
          true rawBytes = AppWebhookOutcome.hang) := by
  refine ⟨?_, ?_, ?_⟩
  · intro st evs h
    rw [runEvents_terminal evs st h]
  · intro st evs h
    have hterm : isTerminal st.order.paymentStatus = true := by rw [h]; rfl
    rw [runEvents_terminal evs st hterm]
    exact ⟨h, by rw [h]; decide⟩
  · intro jsonParse hmacHex stringifyJs process signature rawBytes v hjson
    by_cases hrb : rawBytes = ""
    · simp [appWebhookPipeline, hrb]
    · simp [appWebhookPipeline, hrb, hjson]

/-- Claim C8 witness: a concrete cancelled Order absorbs a stale success
event unchanged, and the concrete signed stale JSON webhook for its
reference produces no response through the app-level stack. -/
theorem C8_terminal_absorb_stale_webhook_witness :
    (runEvents demoCancelledState
        [PayEvent.chargeSuccess "ref_abc123" "AUTH_code1" 7]).1
      = demoCancelledState
    ∧ appWebhookPipeline jsonParseDemo hmacDemo stringifyDemo processDemo
        (some "hrawbytes") true "rawbytes" = AppWebhookOutcome.hang :=
  ⟨C8_terminal_absorb_stale_webhook.1 demoCancelledState
      [PayEvent.chargeSuccess "ref_abc123" "AUTH_code1" 7] rfl,
    C8_terminal_absorb_stale_webhook.2.2 jsonParseDemo hmacDemo stringifyDemo
      processDemo (some "hrawbytes") "rawbytes" demoEventJs (by decide)⟩

end Latodabags
